import Mathlib

/-!
Shallow embedding of the Pico Light Orchestra firmware (src/src/main.py) and of
the conductor client (src/src/conductor.py), written to settle the frozen
claims about the calibration engine, the light-to-pitch mapper, the
record/playback state machine and the HTTP dispatch table.

Conventions of the embedding:
* MicroPython integers are modelled as `ℤ` (or `ℕ` where the source value is a
  count); Python floats are modelled exactly, as `ℚ` for the linear arithmetic
  in calibration and recording, and as `ℝ` for the power curve of the pitch
  mapper.  Python `int(x)` truncation toward zero is `pyInt` / `pyIntQ`.
* Actuator activity (`buzzer_pin.freq`/`duty_u16`, `sleep`) is reified as a
  trace of `Act` actions so that "no actuator activity" and event ordering are
  provable statements.
* The request handler `handle_request` is modelled by its synchronous effect on
  the global state: branches that merely spawn an asyncio task
  (`/calibrate`, `/record/play`, `/tone`) leave the state unchanged at dispatch
  time; the spawned coroutines are modelled separately
  (`calibrate_sensor`, `playback_recording`, `play_api_tone`).
-/

/-- The fixed musical scale `NOTES` of main.py (C4 to B4, in Hz). -/
def NOTES : List ℤ := [262, 294, 330, 349, 392, 440, 494, 523, 587, 659, 698, 784]

/-- Device operating mode, the string `current_mode` of main.py:
`livePlay` is "Live Play", `recordAndPlay` is "Record & Play". -/
inductive Mode where
  | livePlay
  | recordAndPlay
deriving DecidableEq

/-- One recorded melody event, the dictionary appended by `sensor_loop`:
fields `time`, `freq`, `norm`, `duty`. -/
structure MelodyEvent where
  time : ℤ
  freq : ℤ
  norm : ℚ
  duty : ℤ
deriving DecidableEq

/-- The mutable global state of main.py that the claims touch. -/
structure DeviceState where
  current_mode : Mode
  is_recording : Bool
  is_playing_back : Bool
  recorded_melody : List MelodyEvent
  recording_start_time : ℤ
  sensor_range : ℤ
deriving DecidableEq

/-- One observable actuator action: a tone (`buzzer_pin.freq f` followed by
`buzzer_pin.duty_u16 d`), a silencing write (`duty_u16 0`), or a timed
suspension of the given number of milliseconds. -/
inductive Act where
  | tone (freq duty : ℤ)
  | silence
  | sleep (ms : ℤ)
deriving DecidableEq

/-- main.py `start_recording` (lines 141-161): fails iff the mode is not
"Record & Play"; on success clears the melody buffer, captures the start time
and raises the recording flag.  It inspects neither `is_recording` nor
`is_playing_back`. -/
def start_recording (s : DeviceState) (now : ℤ) : Bool × DeviceState :=
  if s.current_mode ≠ Mode.recordAndPlay then (false, s)
  else (true, { s with recorded_melody := [],
                       recording_start_time := now,
                       is_recording := true })

/-- main.py `stop_recording` (lines 163-179): fails iff not recording,
otherwise lowers the recording flag. -/
def stop_recording (s : DeviceState) : Bool × DeviceState :=
  if s.is_recording = false then (false, s)
  else (true, { s with is_recording := false })

/-- A concrete state in which playback is in progress (mode "Record & Play",
`is_playing_back` set, a non-empty melody, not recording). -/
def playingState : DeviceState :=
  { current_mode := Mode.recordAndPlay
    is_recording := false
    is_playing_back := true
    recorded_melody := [⟨0, 262, 0, 32768⟩]
    recording_start_time := 0
    sensor_range := 100 }

/-- A concrete idle state with an empty melody (mode "Record & Play"). -/
def idleEmptyState : DeviceState :=
  { current_mode := Mode.recordAndPlay
    is_recording := false
    is_playing_back := false
    recorded_melody := []
    recording_start_time := 0
    sensor_range := 100 }

/-- Python float truncation toward zero, `int(x)` for a real `x`. -/
noncomputable def pyInt (x : ℝ) : ℤ :=
  if 0 ≤ x then ⌊x⌋ else ⌈x⌉

section PythonPower

open Classical

/-- Python float exponentiation `base ** exp` as used in main.py line 126.
`0.0 ** e` raises ZeroDivisionError for negative `e` and yields `1.0` for
`e = 0`; a negative base with a non-integral exponent raises ValueError; the
remaining cases are real exponentiation (`Real.rpow`, which also satisfies
`0 ^ 0 = 1` and `0 ^ positive = 0`).  `none` models a raised exception. -/
noncomputable def pyPow (base exp : ℝ) : Option ℝ :=
  if base = 0 ∧ exp < 0 then none
  else if base < 0 ∧ ¬(∃ n : ℤ, exp = (n : ℝ)) then none
  else some (base ^ exp)

end PythonPower

/-- main.py `light_to_note_index` (lines 118-130) with an explicit sensitivity
argument (the caller-side default is `sensor_range / 100.0`): `adjusted =
norm ** (2.0 - sensitivity)`, `index = int(adjusted * 11)` clamped to
`[0, 11]`; `none` models a raised floating-point domain error. -/
noncomputable def light_to_note_index (norm_value sensitivity : ℝ) : Option ℤ :=
  match pyPow norm_value (2 - sensitivity) with
  | none => none
  | some adjusted => some (max 0 (min 11 (pyInt (adjusted * 11))))

/-- The calibration profile of main.py: `ambient_light_floor`,
`ambient_light_ceiling` and the `calibrated` flag.  After the margin step the
bounds are floats, hence `ℚ`. -/
structure CalibrationProfile where
  floor : ℚ
  ceiling : ℚ
  calibrated : Bool
deriving DecidableEq

/-- main.py `calibrate_sensor` (lines 45-98), applied to the list of raw
samples it collected (each `photo_sensor_pin.read_u16()` is a value in
`[0, 65535]`): `floor = min(samples)`, `ceiling = max(samples)`, an outward
margin of 10 percent of the span on each side clamped to `[0, 65535]`, then
the ceiling is extended to enforce a minimum span of 1000.  Python `min`/`max`
raise on an empty list, modelled by `none`; the float literal `0.1` is
modelled as the rational `1 / 10`. -/
def calibrate_sensor : List ℕ → Option CalibrationProfile
  | [] => none
  | x :: xs =>
    let mn : ℚ := (xs.foldl min x : ℕ)
    let mx : ℚ := (xs.foldl max x : ℕ)
    let margin : ℚ := (mx - mn) * (1 / 10)
    let f : ℚ := max 0 (mn - margin)
    let c : ℚ := min 65535 (mx + margin)
    let c2 : ℚ := if c - f < 1000 then f + 1000 else c
    some ⟨f, c2, true⟩

/-- One iteration of the playback loop of main.py `playback_recording` (lines
199-214): suspend for `event.time - last_time` when that difference is
positive, then drive the actuator at the event's frequency and duty, a zero
frequency silencing it. -/
def playEvent (last_time : ℤ) (e : MelodyEvent) : List Act :=
  (if 0 < e.time - last_time then [Act.sleep (e.time - last_time)] else []) ++
  (if 0 < e.freq then [Act.tone e.freq e.duty] else [Act.silence])

/-- The full playback loop over the recorded melody, threading `last_time`
(initially 0) through the events. -/
def playbackBody : ℤ → List MelodyEvent → List Act
  | _, [] => []
  | last, e :: rest => playEvent last e ++ playbackBody e.time rest

/-- The start cue of main.py `playback_recording` (lines 193-197): a 600 Hz
tone at duty 20000 for 100 ms, then 200 ms of silence. -/
def startCue : List Act :=
  [Act.tone 600 20000, Act.sleep 100, Act.silence, Act.sleep 200]

/-- The complete actuator trace of a non-empty playback: start cue, the event
loop from time 0, and the final silencing write (line 217). -/
def playbackActs (m : List MelodyEvent) : List Act :=
  startCue ++ playbackBody 0 m ++ [Act.silence]

/-- Result reported by `playback_recording`: the early return that prints
"No recording to play", or a completed playback. -/
inductive PlayResult where
  | nothingToPlay
  | played
deriving DecidableEq

/-- main.py `playback_recording` (lines 181-219) as a state transformer: on an
empty melody it returns before touching `is_playing_back` or the actuator;
otherwise it raises the flag, emits the trace and lowers the flag again (the
returned state records the net effect `is_playing_back = false`). -/
def playback_recording (s : DeviceState) : DeviceState × PlayResult × List Act :=
  if s.recorded_melody = [] then (s, PlayResult.nothingToPlay, [])
  else ({ s with is_playing_back := false }, PlayResult.played,
        playbackActs s.recorded_melody)

/-- Actions that touch the actuator (everything except a timed suspension). -/
def isActuatorAct : Act → Bool
  | Act.sleep _ => false
  | _ => true

/-- The subtrace of actuator writes, in order. -/
def actuatorActs (l : List Act) : List Act := l.filter isActuatorAct

/-- Milliseconds of suspension contributed by one action. -/
def sleepTime : Act → ℤ
  | Act.sleep n => n
  | _ => 0

/-- Total milliseconds of suspension in a trace. -/
def totalSleep (l : List Act) : ℤ := (l.map sleepTime).sum

/-- Timestamp of the last event, threading the running `last_time`. -/
def lastTime : ℤ → List MelodyEvent → ℤ
  | t, [] => t
  | _, e :: rest => lastTime e.time rest

/-- Recorded timestamps are non-decreasing starting from the given time. -/
def timesSorted : ℤ → List MelodyEvent → Bool
  | _, [] => true
  | t, e :: rest => decide (t ≤ e.time) && timesSorted e.time rest

/-- The melody of the specification scenario:
`(t=0, f=262), (t=500, f=0), (t=1200, f=330)`. -/
def exampleMelody : List MelodyEvent :=
  [⟨0, 262, 0, 32768⟩, ⟨500, 0, 0, 0⟩, ⟨1200, 330, 0, 32768⟩]

/-- The JSON body produced by the `/melody` endpoint of main.py (lines
359-366): fields `melody`, `total_events`, `duration_ms`. -/
structure MelodyResponse where
  melody : List MelodyEvent
  total_events : ℕ
  duration_ms : ℤ
deriving DecidableEq

/-- main.py `/melody` endpoint body: `recorded_melody[:100]` (the slice keeps
the first 100 elements), the total event count, and the last event's `time`
(0 on an empty melody). -/
def melody_endpoint (m : List MelodyEvent) : MelodyResponse :=
  ⟨m.take 100, m.length,
   match m.getLast? with
   | some e => e.time
   | none => 0⟩

/-- The most recent `n` events of a melody (the suffix of length `n`), which
is what the claim says the endpoint returns. -/
def lastN (n : ℕ) (l : List MelodyEvent) : List MelodyEvent :=
  l.drop (l.length - n)

/-- A melody of `n` events with timestamps `0, 1, ..., n - 1`. -/
def mkEvents (n : ℕ) : List MelodyEvent :=
  (List.range n).map fun i => ⟨(i : ℤ), 300, 0, 32768⟩

/-- conductor.py `VALID_MODES`: the fixed enumeration of accepted mode tokens
(two canonical names, each with two short aliases). -/
def VALID_MODES : List String :=
  ["l", "r", "L", "R", "Record & Play", "Live Play"]

/-- conductor.py `post_device_mode` (lines 169-186): the client-side set-mode
operation validates the token against `VALID_MODES`; an invalid token prints
an error and no request is issued (`none`), a valid one is sent in the
payload. -/
def post_device_mode (mode : String) : Option String :=
  if mode ∈ VALID_MODES then some mode else none

/-- main.py `/post_mode` handler body (lines 317-333): a token in
`["l", "L", "Live Play"]` selects Live Play and force-stops any recording, a
token in `["r", "R", "Record & Play"]` selects Record & Play, and any other
token falls through, leaving the state untouched; the reply is "ok" with the
(possibly unchanged) mode in every parsed case. -/
def post_mode_handler (mode : String) (s : DeviceState) : DeviceState × String :=
  if mode ∈ ["l", "L", "Live Play"] then
    ((stop_recording { s with current_mode := Mode.livePlay }).2, "ok")
  else if mode ∈ ["r", "R", "Record & Play"] then
    ({ s with current_mode := Mode.recordAndPlay }, "ok")
  else (s, "ok")

/-- main.py `handle_request` (lines 249-440) as its synchronous effect on the
global state: the route table is the if/elif chain over `(method, path)` in
source order, and the returned number is the HTTP status line written.  Only
`/post_mode`, `/record/start` and `/record/stop` mutate state inside the
handler; `/calibrate`, `/record/play` and `/tone` merely spawn asyncio tasks
(`async_calibrate`, `playback_recording`, `play_api_tone`) and reply at once,
and the remaining routes are read-only.  `token` stands for the decoded
`mode` field of a `/post_mode` body and `now` for `time.ticks_ms()` at the
`/record/start` call.  An unrouted path falls through to 404 with no state
change — notably there is no `/post_range` route. -/
def handle_request (method path token : String) (now : ℤ)
    (s : DeviceState) : DeviceState × ℕ :=
  if path = "/health" then (s, 200)
  else if path = "/sensor" then (s, 200)
  else if path = "/calibrate" ∧ method = "POST" then (s, 200)
  else if path = "/get_mode" then (s, 200)
  else if path = "/post_mode" ∧ method = "POST" then
    ((post_mode_handler token s).1, 200)
  else if path = "/record/start" ∧ method = "POST" then
    ((start_recording s now).2, 200)
  else if path = "/record/stop" ∧ method = "POST" then
    ((stop_recording s).2, 200)
  else if path = "/record/play" ∧ method = "POST" then (s, 200)
  else if path = "/melody" then (s, 200)
  else if method = "POST" ∧ path = "/tone" then (s, 200)
  else if path = "/" then (s, 200)
  else if path = "/get_range" then (s, 200)
  else (s, 404)

/-- conductor.py `post_device_range` (lines 204-221): the client-side
set-sensitivity-range operation accepts an integer in `[0, 1000]`
(`VALID_RANGE = 1000`) and posts it to `/post_range`; anything else prints an
error and no request is issued (`none`). -/
def post_device_range (v : ℤ) : Option ℤ :=
  if 0 ≤ v ∧ v ≤ 1000 then some v else none

/-- Python float truncation toward zero, `int(q)` for an exact rational. -/
def pyIntQ (q : ℚ) : ℤ :=
  if 0 ≤ q then ⌊q⌋ else ⌈q⌉

/-- main.py `sensor_loop`, recording branch (lines 490-521), as one sampling
tick: `last_freq` is the loop-local delta-encoding reference, `melody` the
buffer, `norm` the normalized sample, `freq` the scale frequency the pitch
mapper derived for it (`NOTES[light_to_note_index(norm)]`, passed explicitly
because the mapper lives on `ℝ`), and `t` the elapsed time.  Above the 0.05
noise threshold an event is appended and echoed only when the frequency moved
by more than 10 Hz; below it, one silence event is appended only when the
reference was non-zero, and the actuator is silenced. -/
def record_step (last_freq : ℤ) (melody : List MelodyEvent) (norm : ℚ)
    (freq t : ℤ) : ℤ × List MelodyEvent × List Act :=
  if 1 / 20 < norm then
    if 10 < |freq - last_freq| then
      (freq, melody ++ [⟨t, freq, norm, 32768⟩], [Act.tone freq 32768])
    else (last_freq, melody, [])
  else
    if 0 < last_freq then
      (0, melody ++ [⟨t, 0, 0, 0⟩], [Act.silence])
    else (0, melody, [Act.silence])

/-- main.py `play_api_tone` (lines 446-455) as an actuator trace: a positive
frequency drives the actuator at `int(duty * 65535)` duty for `ms`
milliseconds and then silences it; otherwise the coroutine returns at once
with no actuator write at all. -/
def play_api_tone (freq ms : ℤ) (duty : ℚ) : List Act :=
  if 0 < freq then
    [Act.tone freq (pyIntQ (duty * 65535)), Act.sleep ms, Act.silence]
  else []

/-- C1 (counterexample): in a state where playback is in progress and the mode
is "Record & Play", `start_recording` does not fail: it reports success,
raises the recording flag and clears the non-empty melody buffer, refuting the
claim that it returns failure with no state mutation whenever the substate is
Playing. -/
theorem start_recording_while_playing :
    playingState.is_playing_back = true ∧
    playingState.recorded_melody ≠ [] ∧
    (start_recording playingState 5).1 = true ∧
    (start_recording playingState 5).2.is_recording = true ∧
    (start_recording playingState 5).2.recorded_melody = [] := by
  decide

/-- C1 (amended): `start_recording` is gated only by the mode.  When the mode
is "Live Play" it fails and performs no state mutation; when the mode is
"Record & Play" it succeeds — even while playback is in progress — clearing
the melody buffer, capturing the new start time and setting the recording
flag. -/
theorem start_recording_mode_gate (s : DeviceState) (now : ℤ) :
    (s.current_mode = Mode.livePlay → start_recording s now = (false, s)) ∧
    (s.current_mode = Mode.recordAndPlay →
      start_recording s now =
        (true, { s with recorded_melody := [],
                        recording_start_time := now,
                        is_recording := true })) := by
  cases h : s.current_mode <;> simp [start_recording, h]

/-- C1 (witness): the amended gate evaluated at the concrete playing state. -/
theorem start_recording_mode_gate_witness :
    start_recording playingState 5 =
      (true, { playingState with recorded_melody := [],
                                 recording_start_time := 5,
                                 is_recording := true }) :=
  (start_recording_mode_gate playingState 5).2 rfl

lemma pyPow_of_base_zero_neg {e : ℝ} (he : e < 0) : pyPow 0 e = none := by
  unfold pyPow
  rw [if_pos ⟨rfl, he⟩]

lemma pyPow_of_base_zero_nonneg {e : ℝ} (he : 0 ≤ e) :
    pyPow 0 e = some ((0 : ℝ) ^ e) := by
  unfold pyPow
  rw [if_neg, if_neg]
  · rintro ⟨h, -⟩
    exact absurd h (by norm_num)
  · rintro ⟨-, h⟩
    exact absurd h (not_lt.mpr he)

lemma pyPow_of_base_one (e : ℝ) : pyPow 1 e = some 1 := by
  unfold pyPow
  rw [if_neg, if_neg, Real.one_rpow]
  · rintro ⟨h, -⟩
    exact absurd h (by norm_num)
  · rintro ⟨h, -⟩
    exact absurd h (by norm_num)

lemma light_to_note_index_of_pow {n s a : ℝ} (h : pyPow n (2 - s) = some a) :
    light_to_note_index n s = some (max 0 (min 11 (pyInt (a * 11)))) := by
  unfold light_to_note_index
  rw [h]

lemma light_to_note_index_of_err {n s : ℝ} (h : pyPow n (2 - s) = none) :
    light_to_note_index n s = none := by
  unfold light_to_note_index
  rw [h]

lemma pyInt_ofNat (n : ℕ) : pyInt (n : ℝ) = n := by
  unfold pyInt
  rw [if_pos (by positivity), Int.floor_natCast]

lemma pyInt_zero : pyInt 0 = 0 := by
  have h := pyInt_ofNat 0
  simpa using h

lemma pyInt_eleven : pyInt 11 = 11 := by
  have h := pyInt_ofNat 11
  simpa using h

/-- C2 (counterexample): at sensitivity 2 the exponent is `0`, Python evaluates
`0.0 ** 0.0 = 1.0` and the mapper sends normalized light 0 to index 11, not 0;
at sensitivity 3 the exponent is negative and evaluating the mapper at
normalized 0 raises a ZeroDivisionError.  This refutes the claim for every
sensitivity. -/
theorem light_to_note_index_zero_counterexample :
    light_to_note_index 0 2 = some 11 ∧ light_to_note_index 0 3 = none := by
  constructor
  · have hp : pyPow 0 ((2 : ℝ) - 2) = some 1 := by
      rw [pyPow_of_base_zero_nonneg (by norm_num)]
      norm_num
    rw [light_to_note_index_of_pow hp, one_mul, pyInt_eleven]
    norm_num
  · exact light_to_note_index_of_err (pyPow_of_base_zero_neg (by norm_num))

/-- C2 (amended): for every sensitivity `s < 2` (so the exponent `2 - s` is
positive), the mapper sends normalized light 0 to index 0 with no domain
error; for every sensitivity whatsoever, it sends normalized light 1 to index
11.  At `s = 2` the mapper sends 0 to 11, and for `s > 2` evaluation at 0 is a
domain error (see the counterexample). -/
theorem light_to_note_index_edges (s : ℝ) :
    (s < 2 → light_to_note_index 0 s = some 0) ∧
    light_to_note_index 1 s = some 11 := by
  constructor
  · intro hs
    have hexp : (0 : ℝ) < 2 - s := by linarith
    have hp : pyPow 0 ((2 : ℝ) - s) = some 0 := by
      rw [pyPow_of_base_zero_nonneg (le_of_lt hexp), Real.zero_rpow (ne_of_gt hexp)]
    rw [light_to_note_index_of_pow hp, zero_mul, pyInt_zero]
    norm_num
  · rw [light_to_note_index_of_pow (pyPow_of_base_one ((2 : ℝ) - s)), one_mul,
      pyInt_eleven]
    norm_num

/-- C2 (witness): the amended edge facts evaluated at sensitivities 1 and 5. -/
theorem light_to_note_index_edges_witness :
    light_to_note_index 0 1 = some 0 ∧ light_to_note_index 1 5 = some 11 :=
  ⟨(light_to_note_index_edges 1).1 (by norm_num),
   (light_to_note_index_edges 5).2⟩

lemma foldl_min_le_init (x : ℕ) (xs : List ℕ) : xs.foldl min x ≤ x := by
  induction xs generalizing x with
  | nil => exact le_refl x
  | cons a l ih => exact le_trans (ih (min x a)) (min_le_left x a)

lemma init_le_foldl_max (x : ℕ) (xs : List ℕ) : x ≤ xs.foldl max x := by
  induction xs generalizing x with
  | nil => exact le_refl x
  | cons a l ih => exact le_trans (le_max_left x a) (ih (max x a))

lemma foldl_max_le_bound {B : ℕ} (x : ℕ) (xs : List ℕ) (hx : x ≤ B)
    (hxs : ∀ v ∈ xs, v ≤ B) : xs.foldl max x ≤ B := by
  induction xs generalizing x with
  | nil => exact hx
  | cons a l ih =>
    exact ih (max x a) (max_le hx (hxs a (List.mem_cons_self a l)))
      fun v hv => hxs v (List.mem_cons_of_mem a hv)

/-- C3 (amended): for every non-empty sample list with samples in the sensor's
native range `[0, 65535]`, calibration yields a profile with
`floor ≤ min(samples)`, `ceiling ≥ max(samples)`, a span of at least 1000 and
`0 ≤ floor ≤ 65535`; but the ceiling is only bounded by
`max 65535 (floor + 1000)` — the minimum-span extension can push it past the
native range (see the counterexample). -/
theorem calibrate_sensor_bounds (x : ℕ) (xs : List ℕ)
    (hub : ∀ v ∈ x :: xs, v ≤ 65535) :
    ∃ p, calibrate_sensor (x :: xs) = some p ∧
      p.floor ≤ ((xs.foldl min x : ℕ) : ℚ) ∧
      ((xs.foldl max x : ℕ) : ℚ) ≤ p.ceiling ∧
      1000 ≤ p.ceiling - p.floor ∧
      0 ≤ p.floor ∧ p.floor ≤ 65535 ∧
      p.ceiling ≤ max 65535 (p.floor + 1000) ∧
      p.calibrated = true := by
  have hmn_le_x : xs.foldl min x ≤ x := foldl_min_le_init x xs
  have hx_le_mx : x ≤ xs.foldl max x := init_le_foldl_max x xs
  have hmx_ub : xs.foldl max x ≤ 65535 :=
    foldl_max_le_bound x xs (hub x (List.mem_cons_self x xs))
      fun v hv => hub v (List.mem_cons_of_mem x hv)
  set mnN := xs.foldl min x with hmnN
  set mxN := xs.foldl max x with hmxN
  have hmn_mx : (mnN : ℚ) ≤ (mxN : ℚ) := by
    exact_mod_cast le_trans hmn_le_x hx_le_mx
  have hmx_le : (mxN : ℚ) ≤ 65535 := by exact_mod_cast hmx_ub
  have hmn_nonneg : (0 : ℚ) ≤ (mnN : ℚ) := by positivity
  have hmargin : (0 : ℚ) ≤ ((mxN : ℚ) - mnN) * (1 / 10) := by
    have := sub_nonneg.mpr hmn_mx
    positivity
  refine ⟨_, rfl, ?_, ?_, ?_, ?_, ?_, ?_, rfl⟩
  · exact max_le (by exact_mod_cast hmn_nonneg) (by linarith)
  · by_cases hbr :
      min 65535 ((mxN : ℚ) + (mxN - mnN) * (1 / 10)) -
        max 0 ((mnN : ℚ) - (mxN - mnN) * (1 / 10)) < 1000
    · simp only [calibrate_sensor, hmnN, hmxN, if_pos hbr]
      have hc : (mxN : ℚ) ≤ min 65535 ((mxN : ℚ) + (mxN - mnN) * (1 / 10)) :=
        le_min hmx_le (by linarith)
      linarith [min_le_right (65535 : ℚ) ((mxN : ℚ) + (mxN - mnN) * (1 / 10))]
    · simp only [calibrate_sensor, hmnN, hmxN, if_neg hbr]
      exact le_min hmx_le (by linarith)
  · by_cases hbr :
      min 65535 ((mxN : ℚ) + (mxN - mnN) * (1 / 10)) -
        max 0 ((mnN : ℚ) - (mxN - mnN) * (1 / 10)) < 1000
    · simp only [calibrate_sensor, hmnN, hmxN, if_pos hbr]
      linarith
    · simp only [calibrate_sensor, hmnN, hmxN, if_neg hbr]
      linarith [not_lt.mp hbr]
  · exact le_max_left 0 _
  · exact max_le (by norm_num) (by linarith)
  · by_cases hbr :
      min 65535 ((mxN : ℚ) + (mxN - mnN) * (1 / 10)) -
        max 0 ((mnN : ℚ) - (mxN - mnN) * (1 / 10)) < 1000
    · simp only [calibrate_sensor, hmnN, hmxN, if_pos hbr]
      exact le_max_right _ _
    · simp only [calibrate_sensor, hmnN, hmxN, if_neg hbr]
      exact le_trans (min_le_left _ _) (le_max_left _ _)

/-- C3 (witness): the amended bounds evaluated at the sample list
`[100, 50000]`. -/
theorem calibrate_sensor_bounds_witness :
    ∃ p, calibrate_sensor (100 :: [50000]) = some p ∧
      p.floor ≤ (([50000].foldl min 100 : ℕ) : ℚ) ∧
      (([50000].foldl max 100 : ℕ) : ℚ) ≤ p.ceiling ∧
      1000 ≤ p.ceiling - p.floor ∧
      0 ≤ p.floor ∧ p.floor ≤ 65535 ∧
      p.ceiling ≤ max 65535 (p.floor + 1000) ∧
      p.calibrated = true :=
  calibrate_sensor_bounds 100 [50000] (by decide)

/-- C3 (counterexample): a sample list whose values sit at 65000 yields a zero
margin and a degenerate span, so the minimum-span extension sets the ceiling
to 66000, outside the sensor's native range `[0, 65535]`, refuting the claim
that both bounds always lie within the native range. -/
theorem calibrate_ceiling_overflow :
    calibrate_sensor [65000] = some ⟨65000, 66000, true⟩ ∧
    ¬((66000 : ℚ) ≤ 65535) := by
  constructor
  · simp only [calibrate_sensor, List.foldl]
    norm_num
  · norm_num

lemma actuatorActs_append (a b : List Act) :
    actuatorActs (a ++ b) = actuatorActs a ++ actuatorActs b :=
  List.filter_append a b

lemma totalSleep_append (a b : List Act) :
    totalSleep (a ++ b) = totalSleep a + totalSleep b := by
  unfold totalSleep
  rw [List.map_append, List.sum_append]

lemma actuatorActs_playEvent (t : ℤ) (e : MelodyEvent) :
    actuatorActs (playEvent t e) =
      [if 0 < e.freq then Act.tone e.freq e.duty else Act.silence] := by
  unfold playEvent
  rw [actuatorActs_append]
  by_cases h1 : 0 < e.time - t <;> by_cases h2 : 0 < e.freq <;>
    simp [h1, h2, actuatorActs, isActuatorAct]

lemma actuatorActs_playbackBody (m : List MelodyEvent) (t : ℤ) :
    actuatorActs (playbackBody t m) =
      m.map (fun e => if 0 < e.freq then Act.tone e.freq e.duty
                      else Act.silence) := by
  induction m generalizing t with
  | nil => rfl
  | cons e rest ih =>
    rw [playbackBody, actuatorActs_append, actuatorActs_playEvent, ih,
      List.map_cons]
    rfl

lemma totalSleep_playEvent {t : ℤ} {e : MelodyEvent} (h : t ≤ e.time) :
    totalSleep (playEvent t e) = e.time - t := by
  unfold playEvent
  rw [totalSleep_append]
  by_cases h1 : 0 < e.time - t <;> by_cases h2 : 0 < e.freq <;>
    simp [h1, h2, totalSleep, sleepTime] <;> omega

lemma totalSleep_playbackBody (m : List MelodyEvent) (t : ℤ)
    (h : timesSorted t m = true) :
    totalSleep (playbackBody t m) = lastTime t m - t := by
  induction m generalizing t with
  | nil => simp [playbackBody, totalSleep, lastTime]
  | cons e rest ih =>
    rw [timesSorted, Bool.and_eq_true, decide_eq_true_eq] at h
    rw [playbackBody, totalSleep_append, totalSleep_playEvent h.1,
      ih e.time h.2, lastTime]
    ring

/-- C4: playback replays the recorded events in order with the recorded
inter-event gaps.  For every melody with non-decreasing timestamps: the
actuator writes of the event loop are exactly the events in recorded order,
each driving the actuator at the event's frequency and duty with frequency 0
silencing it; the total suspension of the event loop equals the last event's
timestamp (the first gap being measured from 0); the full trace ends with a
silencing write; and the scenario melody `(0, 262), (500, 0), (1200, 330)`
produces tone 262 Hz, silence after a 500 ms gap, tone 330 Hz after a 700 ms
gap, then silence. -/
theorem playback_order_and_timing (m : List MelodyEvent)
    (hs : timesSorted 0 m = true) :
    actuatorActs (playbackBody 0 m) =
      m.map (fun e => if 0 < e.freq then Act.tone e.freq e.duty
                      else Act.silence) ∧
    totalSleep (playbackBody 0 m) = lastTime 0 m ∧
    (playbackActs m).getLast? = some Act.silence ∧
    playbackActs exampleMelody =
      startCue ++ [Act.tone 262 32768, Act.sleep 500, Act.silence,
                   Act.sleep 700, Act.tone 330 32768, Act.silence] := by
  refine ⟨actuatorActs_playbackBody m 0, ?_, ?_, ?_⟩
  · rw [totalSleep_playbackBody m 0 hs]
    ring
  · rw [playbackActs, List.getLast?_concat]
  · decide

/-- C4 (witness): the playback properties evaluated at the scenario melody. -/
theorem playback_order_and_timing_witness :
    actuatorActs (playbackBody 0 exampleMelody) =
      exampleMelody.map (fun e => if 0 < e.freq then Act.tone e.freq e.duty
                                  else Act.silence) ∧
    totalSleep (playbackBody 0 exampleMelody) = lastTime 0 exampleMelody ∧
    (playbackActs exampleMelody).getLast? = some Act.silence ∧
    playbackActs exampleMelody =
      startCue ++ [Act.tone 262 32768, Act.sleep 500, Act.silence,
                   Act.sleep 700, Act.tone 330 32768, Act.silence] :=
  playback_order_and_timing exampleMelody (by decide)

/-- C5 (counterexample): on a melody of 101 events the endpoint returns the
first 100 events (`recorded_melody[:100]`), which differ from the most recent
100 events, refuting the claim that the most recent 100 are returned. -/
theorem melody_endpoint_first_not_recent :
    (melody_endpoint (mkEvents 101)).melody = (mkEvents 101).take 100 ∧
    (melody_endpoint (mkEvents 101)).melody ≠ lastN 100 (mkEvents 101) := by
  constructor
  · rfl
  · decide

/-- C5 (amended): the melody query returns the first 100 events of the melody
(its oldest 100, coinciding with the whole melody — and hence with the most
recent 100 — only when at most 100 events exist), together with the total
event count and the total duration (the last event's timestamp); on an empty
melody the reported duration is 0. -/
theorem melody_endpoint_spec (m : List MelodyEvent) :
    (melody_endpoint m).melody = m.take 100 ∧
    (melody_endpoint m).total_events = m.length ∧
    (m = [] → (melody_endpoint m).duration_ms = 0) ∧
    (∀ e, m.getLast? = some e → (melody_endpoint m).duration_ms = e.time) ∧
    (m.length ≤ 100 → (melody_endpoint m).melody = m) := by
  refine ⟨rfl, rfl, ?_, ?_, ?_⟩
  · intro h
    subst h
    rfl
  · intro e h
    simp only [melody_endpoint, h]
  · intro h
    simp only [melody_endpoint]
    exact List.take_of_length_le h

/-- C5 (witness): the amended query contract evaluated at a two-event melody
and at the empty melody. -/
theorem melody_endpoint_spec_witness :
    (melody_endpoint (mkEvents 2)).melody = (mkEvents 2).take 100 ∧
    (melody_endpoint []).duration_ms = 0 ∧
    (melody_endpoint (mkEvents 2)).duration_ms = 1 ∧
    (melody_endpoint (mkEvents 2)).melody = mkEvents 2 :=
  ⟨(melody_endpoint_spec (mkEvents 2)).1,
   (melody_endpoint_spec []).2.2.1 rfl,
   (melody_endpoint_spec (mkEvents 2)).2.2.2.1 ⟨1, 300, 0, 32768⟩ (by decide),
   (melody_endpoint_spec (mkEvents 2)).2.2.2.2 (by decide)⟩

/-- C6: for every token outside the fixed enumeration `VALID_MODES`, the
set-mode operation reports an error without issuing a request
(`post_device_mode` returns `none`), and the device handler would leave the
whole device state — in particular the current mode — unchanged. -/
theorem set_mode_invalid_rejected (tok : String) (h : tok ∉ VALID_MODES) :
    post_device_mode tok = none ∧
    ∀ s : DeviceState, (post_mode_handler tok s).1 = s := by
  have hl : tok ∉ (["l", "L", "Live Play"] : List String) := by
    intro hm
    apply h
    simp only [List.mem_cons, List.not_mem_nil, or_false] at hm
    rcases hm with h1 | h1 | h1 <;> subst h1 <;> decide
  have hr : tok ∉ (["r", "R", "Record & Play"] : List String) := by
    intro hm
    apply h
    simp only [List.mem_cons, List.not_mem_nil, or_false] at hm
    rcases hm with h1 | h1 | h1 <;> subst h1 <;> decide
  constructor
  · unfold post_device_mode
    rw [if_neg h]
  · intro s
    unfold post_mode_handler
    rw [if_neg hl, if_neg hr]

/-- C6 (witness): the rejection contract evaluated at the invalid token
"x". -/
theorem set_mode_invalid_rejected_witness :
    post_device_mode "x" = none ∧
    ∀ s : DeviceState, (post_mode_handler "x" s).1 = s :=
  set_mode_invalid_rejected "x" (by decide)

lemma sensor_range_post_mode (tok : String) (s : DeviceState) :
    (post_mode_handler tok s).1.sensor_range = s.sensor_range := by
  unfold post_mode_handler stop_recording
  split_ifs <;> rfl

lemma sensor_range_start_recording (s : DeviceState) (now : ℤ) :
    (start_recording s now).2.sensor_range = s.sensor_range := by
  unfold start_recording
  split_ifs <;> rfl

lemma sensor_range_stop_recording (s : DeviceState) :
    (stop_recording s).2.sensor_range = s.sensor_range := by
  unfold stop_recording
  split_ifs <;> rfl

set_option maxHeartbeats 1600000 in
/-- C7: the firmware exposes no set-sensitivity-range operation.  Every
request to `/post_range` — the very endpoint conductor.py's
`post_device_range` posts its validated range to — falls through the route
table to a 404 reply with the state unchanged, and no request whatsoever
changes `sensor_range`, even though `handle_request` declares
`global sensor_range`.  The client-side validation (accept `[0, 1000]`,
reject outside) does exist. -/
theorem post_range_unrouted :
    (∀ method token now s,
      handle_request method "/post_range" token now s = (s, 404)) ∧
    (∀ method path token now s,
      (handle_request method path token now s).1.sensor_range =
        s.sensor_range) ∧
    post_device_range 500 = some 500 ∧ post_device_range 1001 = none := by
  refine ⟨?_, ?_, by decide, by decide⟩
  · intro method token now s
    unfold handle_request
    rw [if_neg (by decide), if_neg (by decide),
      if_neg (fun hc => absurd hc.1 (by decide)),
      if_neg (by decide),
      if_neg (fun hc => absurd hc.1 (by decide)),
      if_neg (fun hc => absurd hc.1 (by decide)),
      if_neg (fun hc => absurd hc.1 (by decide)),
      if_neg (fun hc => absurd hc.1 (by decide)),
      if_neg (by decide),
      if_neg (fun hc => absurd hc.2 (by decide)),
      if_neg (by decide), if_neg (by decide)]
  · intro method path token now s
    unfold handle_request
    split_ifs
    · rfl
    · rfl
    · rfl
    · rfl
    · exact sensor_range_post_mode token s
    · exact sensor_range_start_recording s now
    · exact sensor_range_stop_recording s
    · rfl
    · rfl
    · rfl
    · rfl
    · rfl
    · rfl

/-- C8: in an Idle state (neither recording nor playing) with an empty
recorded melody, starting playback is a no-op: `playback_recording` reports
"nothing to play", performs no actuator activity and leaves the state —
including the Idle substate — unchanged, and the `/record/play` dispatch
itself mutates nothing. -/
theorem play_empty_noop (s : DeviceState) (h0 : s.recorded_melody = [])
    (_h1 : s.is_recording = false) (_h2 : s.is_playing_back = false) :
    playback_recording s = (s, PlayResult.nothingToPlay, ([] : List Act)) ∧
    ∀ token now, handle_request "POST" "/record/play" token now s = (s, 200) := by
  constructor
  · unfold playback_recording
    rw [if_pos h0]
  · intro token now
    unfold handle_request
    rw [if_neg (by decide), if_neg (by decide),
      if_neg (fun hc => absurd hc.1 (by decide)),
      if_neg (by decide),
      if_neg (fun hc => absurd hc.1 (by decide)),
      if_neg (fun hc => absurd hc.1 (by decide)),
      if_neg (fun hc => absurd hc.1 (by decide)),
      if_pos ⟨by decide, by decide⟩]

/-- C8 (witness): the no-op playback evaluated at the concrete idle state with
an empty melody. -/
theorem play_empty_noop_witness :
    playback_recording idleEmptyState =
      (idleEmptyState, PlayResult.nothingToPlay, ([] : List Act)) ∧
    ∀ token now,
      handle_request "POST" "/record/play" token now idleEmptyState =
        (idleEmptyState, 200) :=
  play_empty_noop idleEmptyState rfl rfl rfl

/-- C9: for every transient tone request with non-positive frequency,
`play_api_tone` performs no actuator write at all — no frequency or duty is
set and no silencing write occurs — regardless of the requested duration and
duty. -/
theorem play_api_tone_nonpositive (freq ms : ℤ) (duty : ℚ) (h : freq ≤ 0) :
    play_api_tone freq ms duty = [] := by
  unfold play_api_tone
  rw [if_neg (not_lt.mpr h)]

/-- C9 (witness): the empty trace at frequency 0, duration 500 ms. -/
theorem play_api_tone_nonpositive_witness :
    play_api_tone 0 500 (1 / 2) = [] :=
  play_api_tone_nonpositive 0 500 (1 / 2) (by decide)

/-- C10: `start_recording` resets the melody buffer and captures a new start
time, but the delta-encoding reference `last_freq` is a local variable of
`sensor_loop` that no recording-control operation can touch, so it persists
across recording sessions; consequently, on the first above-threshold sample
of a fresh recording whose mapped frequency lies within 10 Hz of the
previous session's reference, `record_step` appends no event (and produces no
actuator write). -/
theorem last_freq_persists_across_sessions (s : DeviceState)
    (now last_freq freq t : ℤ) (norm : ℚ)
    (hmode : s.current_mode = Mode.recordAndPlay)
    (hth : 1 / 20 < norm) (hnear : |freq - last_freq| ≤ 10) :
    (start_recording s now).2.recorded_melody = [] ∧
    (start_recording s now).2.recording_start_time = now ∧
    record_step last_freq [] norm freq t = (last_freq, [], []) := by
  refine ⟨?_, ?_, ?_⟩
  · simp [start_recording, hmode]
  · simp [start_recording, hmode]
  · unfold record_step
    rw [if_pos hth, if_neg (not_lt.mpr hnear)]

/-- C10 (witness): a fresh recording in the idle state whose first sample maps
again to 262 Hz, the reference left by the previous session: nothing is
appended. -/
theorem last_freq_persists_witness :
    (start_recording idleEmptyState 7).2.recorded_melody = [] ∧
    (start_recording idleEmptyState 7).2.recording_start_time = 7 ∧
    record_step 262 [] (1 / 2) 262 0 = (262, [], []) :=
  last_freq_persists_across_sessions idleEmptyState 7 262 262 0 (1 / 2) rfl
    (by norm_num) (by decide)
